import Mathlib

set_option maxRecDepth 100000

/-!
Verification of the RCON client (packages `packet` and `conn`).

The development shallowly embeds the two Go packages:

* `packet` — the pure codec: request construction (`createRequest`,
  `createRequestId`, `verify`, `encode`) and response parsing
  (`createResponse`), plus classification (`GetMetadata`).
* `conn` — the session layer: `read`, `loginReadAttempt`, `login`, `Dial`,
  `Execute`, `Close`.

Go `int32` values are embedded as `Int` together with explicit
two's-complement wrapping (`wrap32`); `int64` clock values are `Int` with
Go's truncated division (`Int.tdiv` / `Int.tmod`).  Go byte slices are
`List Nat`, Go strings that carry payload bytes are `List Nat` as well,
and the few Go `string` variables that the source manipulates as text
(`method`, `intCheck`) are Lean `String`s.  The nondeterministic inputs of
the session layer are made explicit: the monotonic clock is a `now : Int`
parameter and the TCP socket is a `Net` value listing the byte chunks
successive `conn.Read` calls deliver.
-/

namespace Rcon

/-- Two's-complement wrapping of an unbounded integer into `int32`. -/
def wrap32 (n : Int) : Int :=
  (n + 2147483648) % 4294967296 - 2147483648

/-- The unsigned 32-bit representation (the raw bits) of an `int32` value. -/
def uns32 (v : Int) : Nat :=
  (v % 4294967296).toNat

/-- The Go expression `id & 0x7fffffff` on an `int32` value: the low 31 bits
of the two's-complement representation, which are always non-negative. -/
def and31 (id : Int) : Int :=
  id % 4294967296 % 2147483648

/-- Little-endian encoding of an `int32` value, as written by
`binary.Write(buffer, binary.LittleEndian, v)`. -/
def int32le (v : Int) : List Nat :=
  let u := uns32 v
  [u % 256, u / 256 % 256, u / 65536 % 256, u / 16777216 % 256]

/-! ## Constants of the `packet` package -/

def PacketLengthMax : Int := 4106
/-- Buffer size used by `conn.connect`: `make([]byte, packet.PacketSizeMax)`. -/
def PacketSizeMax : Nat := 4110
def PacketLengthMin : Int := 10

def typeLoginRequest : Int := 3
def typeCommandRequest : Int := 2

def typeLoginResponse : Int := 2
def typeCommandResponse : Int := 0
def typeInvalidResponse : Int := -1

def payloadRequestMax : Int := 1024
def payloadResponseMax : Int := 4096

/-- The error values of both Go packages, together with the errors produced
by the standard library calls the source makes. -/
inductive GoError where
  /-- packet: payload length too large (`ErrorMaxPayloadLength`) -/
  | errorMaxPayloadLength
  /-- packet: payload length too small (`ErrorMinPayloadLength`) -/
  | errorMinPayloadLength
  /-- packet: payload length mismatch (`ErrorMismatchedPayloadLength`) -/
  | errorMismatchedPayloadLength
  /-- the error `binary.Read` returns for a `*string` destination -/
  | binaryReadInvalidType
  /-- the error `strconv.Atoi` returns on non-numeric input -/
  | atoiParse (s : String)
  /-- `io.EOF`, returned by `bytes.Buffer.ReadBytes` when no delimiter is found -/
  | eof
  /-- a failed `net.Conn.Read` (timeout, closed peer, ...) -/
  | netReadFailed
  /-- connection: payload response can't be read (`ErrorPayloadRead`) -/
  | errorPayloadRead
  /-- connection: response type mismatch (`ErrorResponseMismatch`) -/
  | errorResponseMismatch
  /-- connection: response/request id mismatch (`ErrorIDMismatch`) -/
  | errorIDMismatch
  /-- connection: password incorrect (`ErrorPassword`) -/
  | errorPassword
  /-- connection: unknown response (`ErrorUnknown`) -/
  | errorUnknown
  deriving DecidableEq

/-- The `packet.Packet` struct.  `payload` is a Go string holding raw bytes,
so it is embedded as `List Nat`; `method` is compared against the literals
"request"/"response" only, so it stays a `String`. -/
structure Packet where
  length : Int
  requestId : Int
  requestType : Int
  payload : List Nat
  method : String
  encoded : List Nat
  deriving DecidableEq

/-- `Packet.GetMetadata`: the sequence of overwriting `if` statements of the
source, one `let` per statement. -/
def GetMetadata (p : Packet) : String × Int × Int :=
  let name := "unknown"
  let payloadMax : Int := 0
  let (name, payloadMax) :=
    if p.method = "request" then
      let name := if p.requestType = typeLoginRequest then "login" else name
      let name := if p.requestType = typeCommandRequest then "command" else name
      (name, payloadRequestMax)
    else if p.method = "response" then
      let name := if p.requestType = typeLoginResponse then "login" else name
      let name := if p.requestType = typeCommandResponse then "command" else name
      let name := if p.requestType = typeInvalidResponse then "invalid" else name
      (name, payloadResponseMax)
    else
      (name, payloadMax)
  (name, payloadMax, PacketLengthMin + payloadMax)

/-- `Packet.GetId`.  The source returns `p.id`; the only id field the
`Packet` struct declares is `requestId`, which is what this accessor
exposes. -/
def GetId (p : Packet) : Int :=
  p.requestId

def GetMethod (p : Packet) : String :=
  p.method

def GetPayload (p : Packet) : List Nat :=
  p.payload

def GetEncoded (p : Packet) : List Nat :=
  p.encoded

/-- `Packet.verify`.  The comparison
`p.length != PacketLengthMin + int32(len(p.payload))` performs `int32`
arithmetic, hence the explicit wrapping. -/
def verify (p : Packet) : Option GoError :=
  if p.length < PacketLengthMin then
    some .errorMinPayloadLength
  else
    let (_, _, lengthMax) := GetMetadata p
    if p.length > lengthMax then
      some .errorMaxPayloadLength
    else if p.length ≠ wrap32 (PacketLengthMin + wrap32 (p.payload.length : Int)) then
      some .errorMismatchedPayloadLength
    else
      none

/-- `Packet.encode`: length, request id and type as little-endian `int32`,
then the payload bytes, a null terminator and a null pad. -/
def encode (p : Packet) : Packet :=
  { p with encoded :=
      int32le p.length ++ int32le p.requestId ++ int32le p.requestType ++
        p.payload ++ [0] ++ [0] }

/-- `createRequestId`.  `time.Now().UnixNano()` is passed in explicitly as
`now`; Go's `/` and `%` on `int64` truncate toward zero (`tdiv`/`tmod`) and
the final conversion to `int32` wraps. -/
def createRequestId (now : Int) (id : Int) : Int :=
  if id ≤ 0 ∨ id ≠ and31 id then
    wrap32 ((now.tdiv 100000).tmod 100000)
  else
    wrap32 (id + 1)

/-- The tail of `createRequest` after the struct literal:
`if err := p.verify(); err != nil { return nil, err }; p.encode(); return p, nil`. -/
def finishRequest (p : Packet) : Except GoError Packet :=
  match verify p with
  | some e => .error e
  | none => .ok (encode p)

/-- `createRequest`.  The struct literal computes
`PacketLengthMin + int32(len(body))` in `int32` arithmetic. -/
def createRequest (now : Int) (id : Int) (code : Int) (body : List Nat) :
    Except GoError Packet :=
  finishRequest
    { length := wrap32 (PacketLengthMin + wrap32 (body.length : Int))
      requestId := createRequestId now id
      requestType := code
      payload := body
      method := "request"
      encoded := [] }

def CreateLoginRequest (now : Int) (password : List Nat) : Except GoError Packet :=
  createRequest now 0 typeLoginRequest password

def CreateCommandRequest (now : Int) (id : Int) (body : List Nat) :
    Except GoError Packet :=
  createRequest now id typeCommandRequest body

/-- `binary.Read(b, binary.LittleEndian, &intCheck)` where `intCheck` is a
Go `string`: a string is not a fixed-size type, so `binary.Read` returns
the error "binary.Read: invalid type *string" without consuming any input
and without writing to the destination.  The source discards this error. -/
def binaryReadIntoString (b : List Nat) (s : String) :
    List Nat × String × Option GoError :=
  (b, s, some .binaryReadInvalidType)

/-- `strconv.Atoi`: optional sign followed by at least one decimal digit.
(The `int64` range check of the standard library is omitted: every call in
this code passes the empty string, which is rejected before any range
consideration.) -/
def Atoi (s : String) : Except GoError Int :=
  let (sgn, ds) :=
    match s.toList with
    | '-' :: rest => ((-1 : Int), rest)
    | '+' :: rest => ((1 : Int), rest)
    | rest => ((1 : Int), rest)
  if ds.isEmpty || !(ds.all Char.isDigit) then
    .error (.atoiParse s)
  else
    .ok (sgn * ds.foldl (fun acc ch => 10 * acc + ((ch.toNat : Int) - 48)) 0)

/-- `bytes.Buffer.ReadBytes(0x00)`: the bytes up to and including the first
null byte, or the whole remaining input together with `io.EOF` when no null
byte occurs. -/
def readBytesZero (b : List Nat) : List Nat × List Nat × Option GoError :=
  match b.findIdx? (· == 0) with
  | some i => (b.take (i + 1), b.drop (i + 1), none)
  | none => (b, [], some .eof)

/-- `createResponse`.  The three header fields are "read" with
`binary.Read` into a string destination whose error the source ignores,
after which `strconv.Atoi` is applied to the still-empty string — so the
first `Atoi` fails on every input and the rest of the function is
unreachable.  It is nevertheless translated in full. -/
def createResponse (data : List Nat) : Except GoError (Packet × Option (List Nat)) :=
  let b := data
  let intCheck := ""
  let (b, intCheck, _) := binaryReadIntoString b intCheck
  match Atoi intCheck with
  | .error err => .error err
  | .ok length =>
  let (b, intCheck, _) := binaryReadIntoString b intCheck
  match Atoi intCheck with
  | .error err => .error err
  | .ok requestId =>
  let (b, intCheck, _) := binaryReadIntoString b intCheck
  match Atoi intCheck with
  | .error err => .error err
  | .ok requestType =>
  match readBytesZero b with
  | (_, _, some err) =>
    -- the io.EOF branch trims the trailing byte but still returns the error
    .error err
  | (payload, _, none) =>
    let p : Packet :=
      { length := wrap32 length
        requestId := wrap32 requestId
        requestType := wrap32 requestType
        payload := payload
        method := "response"
        encoded := data }
    match verify p with
    | some e => .error e
    | none =>
      if (data.length : Int) = 4 + p.length then
        .ok (p, none)
      else
        .ok (p, some (data.drop (4 + p.length).toNat))

def CreateLoginResponse (data : List Nat) :
    Except GoError (Packet × Option (List Nat)) :=
  createResponse data

def CreateCommandResponse (data : List Nat) :
    Except GoError (Packet × Option (List Nat)) :=
  createResponse data

/-- `createResponse` fails on every input: `binary.Read` into a `*string`
destination writes nothing and its error is discarded, so `strconv.Atoi`
is applied to the empty string and rejects it. -/
theorem createResponse_fails (data : List Nat) :
    createResponse data = .error (.atoiParse "") :=
  rfl

/-! ## The `conn` package

The TCP socket is embedded as the list of byte chunks that successive
`net.Conn.Read` calls will deliver, plus the flag set by `Close`.  Write
calls and deadlines are not observable by any claim and the model lets
them succeed; the mutex is elided because the model is single-threaded. -/

structure Net where
  reads : List (List Nat)
  closed : Bool
  deriving DecidableEq

/-- The `conn.Connection` struct (`conn` handle and mutex elided, see
above).  `queue = none` is the Go `nil` slice. -/
structure Connection where
  id : Int
  buffer : List Nat
  queue : Option (List Nat)
  deriving DecidableEq

/-- One `net.Conn.Read`: delivers the next pending chunk, or fails (read
timeout / closed peer) when nothing is left. -/
def connRead (net : Net) : Option (List Nat × Net) :=
  match net.reads with
  | [] => none
  | chunk :: rest => some (chunk, { net with reads := rest })

/-- Go `copy(dst[off:], src)`: overwrite in place, truncated to the
destination's length. -/
def copyInto (dst : List Nat) (off : Nat) (src : List Nat) : List Nat :=
  (dst.take off ++ src ++ dst.drop (off + src.length)).take dst.length

/-- The tail of `Connection.read` after the first portion of `size` bytes
is in the buffer: at most one continuation read when `size < 4`, then the
single source test `if size != 4 { return ErrorPayloadRead }`, applied on
each path. -/
def readRest (c : Connection) (net : Net) (size : Nat) :
    Option GoError × Connection × Net :=
  if size < 4 then
    match connRead net with
    | none => (some .netReadFailed, c, net)
    | some (chunk, net1) =>
      let c1 := { c with buffer := copyInto c.buffer size chunk }
      if size + chunk.length ≠ 4 then (some .errorPayloadRead, c1, net1)
      else (none, c1, net1)
  else if size ≠ 4 then (some .errorPayloadRead, c, net)
  else (none, c, net)

/-- `Connection.read`: consume the queued overflow if any, otherwise
perform one socket read, then `readRest`. -/
def read (c : Connection) (net : Net) : Option GoError × Connection × Net :=
  match c.queue with
  | some q =>
    readRest { c with buffer := copyInto c.buffer 0 q, queue := none } net q.length
  | none =>
    match connRead net with
    | none => (some .netReadFailed, c, net)
    | some (chunk, net1) =>
      readRest { c with buffer := copyInto c.buffer 0 chunk } net1 chunk.length

/-- `Connection.loginReadAttempt`.  The mutated connection and network are
returned alongside the result even on failure, since the Go receiver is
mutated in place. -/
def loginReadAttempt (c : Connection) (net : Net) :
    Except GoError (Packet × Option (List Nat)) × Connection × Net :=
  match read c net with
  | (some e, c1, net1) => (.error e, c1, net1)
  | (none, c1, net1) =>
    match CreateLoginResponse c1.buffer with
    | .error e => (.error e, c1, net1)
    | .ok (loginResponse, overflow) =>
      let (name, _, _) := GetMetadata loginResponse
      if name = "unknown" then (.error .errorUnknown, c1, net1)
      else if name = "invalid" then (.error .errorPassword, c1, net1)
      else if name ≠ "login" ∨ GetMethod loginResponse ≠ "response" then
        (.error .errorResponseMismatch, c1, net1)
      else (.ok (loginResponse, overflow), c1, net1)

/-- `Connection.login`: send the login request, one read attempt, a single
retry when (and only when) the first attempt failed with `ErrorUnknown`,
then the id check. -/
def login (c : Connection) (net : Net) (password : List Nat) (now : Int) :
    Except GoError Packet × Connection × Net :=
  match CreateLoginRequest now password with
  | .error e => (.error e, c, net)
  | .ok loginRequest =>
    -- c.conn.Write(loginRequest.GetEncoded()) succeeds in this model
    let (r1, c1, net1) := loginReadAttempt c net
    let (r2, c2, net2) :=
      match r1 with
      | .error .errorUnknown => loginReadAttempt c1 net1
      | _ => (r1, c1, net1)
    match r2 with
    | .error e => (.error e, c2, net2)
    | .ok (loginResponse, overflow) =>
      if GetId loginResponse ≠ GetId loginRequest then
        (.error .errorIDMismatch, c2, net2)
      else
        (.ok loginResponse, { c2 with queue := overflow }, net2)

/-- `conn.connect`: the TCP dial is modelled as succeeding (dial failures
decide no claim); the scratch buffer is allocated at `PacketSizeMax`. -/
def connect (net : Net) : Connection × Net :=
  ({ id := 0, buffer := List.replicate PacketSizeMax 0, queue := none }, net)

/-- `conn.Dial`: connect, log in, store the acknowledged id.  On any login
error the connection value is dropped and only the error is returned; no
path closes the socket. -/
def Dial (net : Net) (password : List Nat) (now : Int) :
    Except GoError Connection × Net :=
  let (c, net1) := connect net
  let (r, c1, net2) := login c net1 password now
  match r with
  | .error e => (.error e, net2)
  | .ok loginPacket => (.ok { c1 with id := GetId loginPacket }, net2)

/-- `Connection.Execute`: build the command request from the stored id,
write it, read, decode, classify, check ids, then store the overflow and
the acknowledged id. -/
def Execute (c : Connection) (net : Net) (cmd : List Nat) (now : Int) :
    Except GoError (List Nat) × Connection × Net :=
  match CreateCommandRequest now c.id cmd with
  | .error e => (.error e, c, net)
  | .ok request =>
    -- c.conn.Write(request.GetEncoded()) succeeds in this model
    match read c net with
    | (some e, c1, net1) => (.error e, c1, net1)
    | (none, c1, net1) =>
      match CreateCommandResponse c1.buffer with
      | .error e => (.error e, c1, net1)
      | .ok (response, overflow) =>
        let (name, _, _) := GetMetadata response
        if name = "unknown" then (.error .errorUnknown, c1, net1)
        else if name ≠ "command" ∨ GetMethod response ≠ "response" then
          (.error .errorResponseMismatch, c1, net1)
        else if GetId response ≠ GetId request then
          (.error .errorIDMismatch, c1, net1)
        else
          (.ok (GetPayload response),
            { c1 with queue := overflow, id := GetId response }, net1)

/-- `Connection.Close`: releases the socket. -/
def Close (net : Net) : Net :=
  { net with closed := true }

/-! ## General lemmas -/

/-- `wrap32` is the identity on values already in `int32` range. -/
theorem wrap32_eq_self {n : Int} (h1 : -2147483648 ≤ n) (h2 : n < 2147483648) :
    wrap32 n = n := by
  unfold wrap32
  omega

/-- A successful `finishRequest` means verification passed and the result is
the encoded input packet. -/
theorem finishRequest_ok {p q : Packet} (h : finishRequest p = .ok q) :
    verify p = none ∧ q = encode p := by
  unfold finishRequest at h
  split at h
  · exact absurd h (by simp)
  · rename_i hv
    simp only [Except.ok.injEq] at h
    exact ⟨hv, h.symm⟩

/-- The id produced by the clock branch of `createRequestId` lies in
`[0, 100000)` whenever the clock is non-negative. -/
theorem clock_id_bounds (t : Int) (ht : 0 ≤ t) :
    0 ≤ wrap32 ((t.tdiv 100000).tmod 100000) ∧
    wrap32 ((t.tdiv 100000).tmod 100000) < 2147483648 := by
  have hq : 0 ≤ t.tdiv 100000 := Int.tdiv_nonneg ht (by norm_num)
  have h1 : 0 ≤ (t.tdiv 100000).tmod 100000 := Int.tmod_nonneg _ hq
  have h2 : (t.tdiv 100000).tmod 100000 < 100000 := Int.tmod_lt_of_pos _ (by norm_num)
  unfold wrap32
  omega

/-- `true` exactly on a successfully built request. -/
def builtOk : Except GoError Packet → Bool
  | .ok _ => true
  | .error _ => false

/-- The length invariant of spec §8, read off a constructor result (it says
nothing about failed constructions). -/
def declaredMatches : Except GoError Packet → Prop
  | .ok p => p.length = 10 + (p.payload.length : Int)
  | .error _ => True

/-! ## The claims -/

/-- Claim C1.  The round-trip property fails: decoding is broken for every
input, so in particular decoding the encoded bytes of the command request
built from id 42 and body "hi" does not succeed.  The first conjunct shows
`createResponse` returns the `strconv.Atoi` syntax error on every input;
the second shows the request side does build and encode the expected frame;
the third evaluates the decoder on exactly those bytes. -/
theorem c1_roundtrip_decode_fails :
    (∀ data : List Nat, createResponse data = .error (.atoiParse "")) ∧
    createRequest 0 42 typeCommandRequest [104, 105] =
      .ok { length := 12, requestId := 43, requestType := 2, payload := [104, 105],
            method := "request",
            encoded := [12, 0, 0, 0, 43, 0, 0, 0, 2, 0, 0, 0, 104, 105, 0, 0] } ∧
    createResponse [12, 0, 0, 0, 43, 0, 0, 0, 2, 0, 0, 0, 104, 105, 0, 0] =
      .error (.atoiParse "") :=
  ⟨createResponse_fails, rfl, rfl⟩

/-- Claim C2.  `read` does not succeed whenever at least 4 bytes were
obtained: its final test is `size != 4`, so a single socket read delivering
a complete 14-byte login-response frame is rejected with
`ErrorPayloadRead` (first two conjuncts, the second showing no further
socket read was attempted), and a queued 14-byte overflow frame is
rejected the same way (third conjunct). -/
theorem c2_read_rejects_full_frame :
    (read { id := 0, buffer := List.replicate PacketSizeMax 0, queue := none }
        { reads := [[10, 0, 0, 0, 0, 0, 0, 0, 2, 0, 0, 0, 0, 0]],
          closed := false }).1 = some GoError.errorPayloadRead ∧
    (read { id := 0, buffer := List.replicate PacketSizeMax 0, queue := none }
        { reads := [[10, 0, 0, 0, 0, 0, 0, 0, 2, 0, 0, 0, 0, 0]],
          closed := false }).2.2.reads = [] ∧
    (read { id := 0, buffer := List.replicate PacketSizeMax 0,
            queue := some [10, 0, 0, 0, 0, 0, 0, 0, 2, 0, 0, 0, 0, 0] }
        { reads := [], closed := false }).1 = some GoError.errorPayloadRead :=
  ⟨rfl, rfl, rfl⟩

/-- Claim C3 (amended).  `GetMetadata` classifies a response by its type
code alone: 2 is "login", 0 is "command", -1 is "invalid", anything else
"unknown"; the request id never enters the classification (second
conjunct). -/
theorem c3_classification_by_kind_code :
    (∀ p : Packet, p.method = "response" →
      (GetMetadata p).1 =
        (if p.requestType = 2 then "login"
         else if p.requestType = 0 then "command"
         else if p.requestType = -1 then "invalid"
         else "unknown")) ∧
    (∀ p : Packet, ∀ x : Int,
      (GetMetadata { p with requestId := x }).1 = (GetMetadata p).1) := by
  constructor
  · intro p h
    by_cases h2 : p.requestType = 2 <;> by_cases h0 : p.requestType = 0 <;>
      by_cases hm : p.requestType = -1 <;>
      simp_all [GetMetadata, typeLoginResponse, typeCommandResponse, typeInvalidResponse]
  · intro p x
    rfl

/-- Claim C3, counterexample to the claim as stated: the auth-failure
response of the actual protocol (request id -1, type code 2) is classified
"login", not "invalid", because classification looks at the type code
only. -/
theorem c3_invalid_requires_type_counterexample :
    (GetMetadata { length := 10, requestId := -1, requestType := 2,
                   payload := [], method := "response", encoded := [] }).1 = "login" ∧
    (GetMetadata { length := 10, requestId := -1, requestType := 2,
                   payload := [], method := "response", encoded := [] }).1 ≠ "invalid" :=
  ⟨by decide, by decide⟩

/-- Claim C3, witness: the amended classification applied to a concrete
command response. -/
theorem c3_classification_witness :
    (GetMetadata { length := 10, requestId := 3, requestType := 0,
                   payload := [], method := "response", encoded := [] }).1 = "command" := by
  have h := c3_classification_by_kind_code.1
    { length := 10, requestId := 3, requestType := 0,
      payload := [], method := "response", encoded := [] } rfl
  simpa using h

/-- Claim C4.  A dial against a server that answers the login request with
the standard 14-byte auth-rejection frame (request id -1, type 2) fails
with `ErrorPayloadRead` — `read` rejects the 14-byte chunk — so the
"invalid" classification, the `ErrorPassword` result and the claimed close
are all unreachable: the returned error is not `ErrorPassword` and the
socket is not closed.  (No `Connection` is returned with the error, so the
"no Session survives" part does hold.) -/
theorem c4_dial_auth_reject_run :
    (Dial { reads := [[10, 0, 0, 0, 255, 255, 255, 255, 2, 0, 0, 0, 0, 0]],
            closed := false } [115, 101, 99, 114, 101, 116] 0).1
      = .error GoError.errorPayloadRead ∧
    (Dial { reads := [[10, 0, 0, 0, 255, 255, 255, 255, 2, 0, 0, 0, 0, 0]],
            closed := false } [115, 101, 99, 114, 101, 116] 0).2.closed = false :=
  ⟨rfl, rfl⟩

/-- Claim C5.  With a garbage frame (type 9) followed by a valid login
response on the wire, Dial fails with `ErrorPayloadRead` on the first read
attempt — not `ErrorUnknown`, the only error that triggers the retry — and
the second frame is still unread when Dial returns, so no retry and no
successful login happen. -/
theorem c5_dial_no_retry_run :
    (Dial { reads := [[10, 0, 0, 0, 7, 0, 0, 0, 9, 0, 0, 0, 0, 0],
                      [10, 0, 0, 0, 0, 0, 0, 0, 2, 0, 0, 0, 0, 0]],
            closed := false } [115, 101, 99, 114, 101, 116] 0).1
      = .error GoError.errorPayloadRead ∧
    (Dial { reads := [[10, 0, 0, 0, 7, 0, 0, 0, 9, 0, 0, 0, 0, 0],
                      [10, 0, 0, 0, 0, 0, 0, 0, 2, 0, 0, 0, 0, 0]],
            closed := false } [115, 101, 99, 114, 101, 116] 0).2.reads
      = [[10, 0, 0, 0, 0, 0, 0, 0, 2, 0, 0, 0, 0, 0]] :=
  ⟨rfl, rfl⟩

/-- Claim C6.  When one network read delivers two concatenated valid
command-response frames (here two 15-byte frames with payloads "A" and
"B"), Execute fails with `ErrorPayloadRead` — `read` rejects the 30-byte
chunk — so no payload is returned and no overflow is stored: the queue is
still empty afterwards. -/
theorem c6_execute_concatenated_frames_run :
    (Execute { id := 7, buffer := List.replicate PacketSizeMax 0, queue := none }
        { reads := [[11, 0, 0, 0, 8, 0, 0, 0, 0, 0, 0, 0, 65, 0, 0] ++
                    [11, 0, 0, 0, 9, 0, 0, 0, 0, 0, 0, 0, 66, 0, 0]],
          closed := false } [97] 0).1 = .error GoError.errorPayloadRead ∧
    (Execute { id := 7, buffer := List.replicate PacketSizeMax 0, queue := none }
        { reads := [[11, 0, 0, 0, 8, 0, 0, 0, 0, 0, 0, 0, 65, 0, 0] ++
                    [11, 0, 0, 0, 9, 0, 0, 0, 0, 0, 0, 0, 66, 0, 0]],
          closed := false } [97] 0).2.1.queue = none :=
  ⟨rfl, rfl⟩

/-- A request-direction packet of declared length 10 whose wrapped recomputed
length agrees passes `verify`. -/
theorem verify_none_of (p : Packet) (hm : p.method = "request")
    (hl : p.length = 10)
    (hw : wrap32 (PacketLengthMin + wrap32 ((p.payload.length : Nat) : Int)) = p.length) :
    verify p = none := by
  unfold verify GetMetadata
  rw [hm, hl, hw, hl]
  norm_num [PacketLengthMin, payloadRequestMax]

/-- `finishRequest` succeeds with the encoded packet when `verify` passes. -/
theorem finishRequest_of_verify_none (p : Packet) (h : verify p = none) :
    finishRequest p = .ok (encode p) := by
  unfold finishRequest
  rw [h]

/-- Claim C7 (amended).  For every packet built by the request constructor
from a body shorter than 2^31 - 10 bytes — so that the `int32` length
computation cannot wrap — and for every packet a response constructor
decodes successfully, the declared length equals the payload length plus
10. -/
theorem c7_length_invariant_bounded :
    (∀ now id code body p, (body : List Nat).length < 2147483638 →
      createRequest now id code body = .ok p →
      p.length = 10 + (p.payload.length : Int)) ∧
    (∀ data p rest, createResponse data = .ok (p, rest) →
      p.length = 10 + (p.payload.length : Int)) := by
  constructor
  · intro now id code body p hlen h
    obtain ⟨hv, hp⟩ := finishRequest_ok h
    subst hp
    have hb : (body.length : Int) < 2147483638 := by exact_mod_cast hlen
    have hb0 : 0 ≤ (body.length : Int) := by positivity
    have h1 : wrap32 (body.length : Int) = (body.length : Int) :=
      wrap32_eq_self (by omega) (by omega)
    simp only [encode, PacketLengthMin]
    rw [h1]
    exact wrap32_eq_self (by omega) (by omega)
  · intro data p rest h
    rw [createResponse_fails] at h
    exact Except.noConfusion h

/-- Claim C7, witness: the bounded length invariant at the concrete request
built from id 5 and body "hi". -/
theorem c7_length_invariant_witness :
    ([104, 105] : List Nat).length < 2147483638 ∧
    createRequest 0 5 2 [104, 105] =
      .ok { length := 12, requestId := 6, requestType := 2, payload := [104, 105],
            method := "request",
            encoded := [12, 0, 0, 0, 6, 0, 0, 0, 2, 0, 0, 0, 104, 105, 0, 0] } ∧
    ({ length := 12, requestId := 6, requestType := 2, payload := [104, 105],
       method := "request",
       encoded := [12, 0, 0, 0, 6, 0, 0, 0, 2, 0, 0, 0, 104, 105, 0, 0] } : Packet).length
      = 10 +
        (({ length := 12, requestId := 6, requestType := 2, payload := [104, 105],
            method := "request",
            encoded := [12, 0, 0, 0, 6, 0, 0, 0, 2, 0, 0, 0, 104, 105, 0, 0] } : Packet).payload.length : Int) := by
  refine ⟨by norm_num, rfl, ?_⟩
  exact c7_length_invariant_bounded.1 0 5 2 [104, 105] _ (by norm_num) rfl

/-- Claim C7, counterexample to the unrestricted claim: a body of 2^32
bytes is truncated to 0 by `int32(len(body))`, so the request builds
successfully with declared length 10 while its payload is 2^32 bytes
long — the declared length does not equal the payload length plus 10. -/
theorem c7_truncation_counterexample :
    builtOk (createRequest 0 5 2 (List.replicate 4294967296 65)) = true ∧
    ¬ declaredMatches (createRequest 0 5 2 (List.replicate 4294967296 65)) := by
  have hlen : (((List.replicate (4294967296 : Nat) (65 : Nat)).length : Nat) : Int) = 4294967296 := by
    rw [List.length_replicate]
    decide
  have hw : wrap32 (PacketLengthMin + wrap32 (((List.replicate (4294967296 : Nat) (65 : Nat)).length : Nat) : Int)) = 10 := by
    rw [hlen]
    decide
  have hid : createRequestId 0 5 = 6 := by decide
  have hres : createRequest 0 5 2 (List.replicate 4294967296 65) =
      finishRequest
        { length := 10, requestId := 6, requestType := 2,
          payload := List.replicate 4294967296 65, method := "request", encoded := [] } := by
    unfold createRequest
    rw [hw, hid]
  have hv : verify
      { length := 10, requestId := 6, requestType := 2,
        payload := List.replicate 4294967296 65, method := "request", encoded := [] } = none :=
    verify_none_of _ rfl rfl hw
  have hok : createRequest 0 5 2 (List.replicate 4294967296 65) =
      .ok (encode
        { length := 10, requestId := 6, requestType := 2,
          payload := List.replicate 4294967296 65, method := "request", encoded := [] }) :=
    hres.trans (finishRequest_of_verify_none _ hv)
  constructor
  · rw [hok]
    rfl
  · rw [hok]
    dsimp only [declaredMatches, encode]
    rw [hlen]
    norm_num

/-- Claim C8.  A command request with a 1024-byte payload builds
successfully, and one with a 1025-byte payload fails with
`ErrorMaxPayloadLength`; but decoding the 13-byte response frame whose
declared length is 9 fails with the `strconv.Atoi` syntax error — the
decoder never reaches the minimum-length check, so `ErrorMinPayloadLength`
is not produced. -/
theorem c8_boundaries_run :
    builtOk (createRequest 0 5 2 (List.replicate 1024 97)) = true ∧
    createRequest 0 5 2 (List.replicate 1025 97) = .error GoError.errorMaxPayloadLength ∧
    createResponse [9, 0, 0, 0, 1, 0, 0, 0, 0, 0, 0, 0, 0] = .error (GoError.atoiParse "") :=
  ⟨rfl, rfl, rfl⟩

/-- Claim C9 (amended).  `createRequestId` at seeds 0 and -5 yields an id
in `[0, 2^31 - 1]` for any non-negative clock; at seed 42 it yields 43;
every seed at most 0 takes the clock branch (the result does not depend on
the seed); and for seeds in `(0, 2^31 - 2]` the result is the seed plus
one — the upper endpoint 2^31 - 1, where the increment wraps, is excluded. -/
theorem c9_id_sequencing_amended :
    (∀ t : Int, 0 ≤ t →
      0 ≤ createRequestId t 0 ∧ createRequestId t 0 < 2147483648) ∧
    (∀ t : Int, 0 ≤ t →
      0 ≤ createRequestId t (-5) ∧ createRequestId t (-5) < 2147483648) ∧
    (∀ t : Int, createRequestId t 42 = 43) ∧
    (∀ t seed : Int, seed ≤ 0 → createRequestId t seed = createRequestId t 0) ∧
    (∀ t seed : Int, 0 < seed → seed ≤ 2147483646 →
      createRequestId t seed = seed + 1) := by
  refine ⟨?_, ?_, ?_, ?_, ?_⟩
  · intro t ht
    unfold createRequestId
    rw [if_pos (Or.inl le_rfl)]
    exact clock_id_bounds t ht
  · intro t ht
    unfold createRequestId
    rw [if_pos (Or.inl (by norm_num))]
    exact clock_id_bounds t ht
  · intro t
    unfold createRequestId
    rw [if_neg (by decide)]
    decide
  · intro t seed h
    unfold createRequestId
    rw [if_pos (Or.inl h), if_pos (Or.inl le_rfl)]
  · intro t seed h1 h2
    unfold createRequestId
    rw [if_neg]
    · exact wrap32_eq_self (by omega) (by omega)
    · push_neg
      refine ⟨by omega, ?_⟩
      unfold and31
      omega

/-- Claim C9, counterexample to the claim as stated: the seed 2^31 - 1
lies in the claimed interval `(0, 2^31 - 1]`, yet the result of
`createRequestId` there is not seed + 1 (the `int32` increment wraps). -/
theorem c9_wrap_counterexample :
    0 < (2147483647 : Int) ∧ (2147483647 : Int) ≤ 2147483647 ∧
    createRequestId 0 2147483647 ≠ 2147483647 + 1 :=
  ⟨by norm_num, by norm_num, by decide⟩

/-- Claim C9, witness: the amended sequencing facts at concrete inputs. -/
theorem c9_id_sequencing_witness :
    createRequestId 9 42 = 43 ∧
    createRequestId 3 (-7) = createRequestId 3 0 ∧
    createRequestId 0 7 = 7 + 1 ∧
    0 ≤ createRequestId 5 0 :=
  ⟨c9_id_sequencing_amended.2.2.1 9,
   c9_id_sequencing_amended.2.2.2.1 3 (-7) (by norm_num),
   c9_id_sequencing_amended.2.2.2.2 0 7 (by norm_num) (by norm_num),
   (c9_id_sequencing_amended.1 5 (by norm_num)).1⟩

/-- Claim C10.  The overflow guard `id != id & 0x7fffffff` accepts every
non-negative `int32` — the masked value equals the value itself — so the
maximum positive seed 2^31 - 1 reaches the increment branch and the
`int32` addition wraps to -2^31: a positive seed produces a negative
request id. -/
theorem c10_overflow_guard_wraps :
    (∀ id : Int, 0 ≤ id → id < 2147483648 → and31 id = id) ∧
    (∀ t : Int, createRequestId t 2147483647 = -2147483648) ∧
    createRequestId 0 2147483647 < 0 := by
  refine ⟨?_, ?_, by decide⟩
  · intro id h1 h2
    unfold and31
    omega
  · intro t
    unfold createRequestId
    rw [if_neg (by decide)]
    decide

/-- Claim C10, witness: the guard equality and the wrap at concrete
inputs. -/
theorem c10_overflow_guard_wraps_witness :
    and31 1 = 1 ∧ createRequestId 1 2147483647 = -2147483648 :=
  ⟨c10_overflow_guard_wraps.1 1 (by norm_num) (by norm_num),
   c10_overflow_guard_wraps.2.1 1⟩
